import Mathlib

/-!
Verification development for the traktarr client layer
(src/media/trakt.py and src/media/sonarr.py).

The embedding below translates the response-driven behaviour of the
source functions into pure Lean functions.  HTTP traffic is modelled as
explicit data (lists or streams of responses), wall-clock time advances
only at the `time.sleep` calls of the source, and a call of the Python
`requests` library that raises is modelled by the `HttpAttempt.exn`
constructor.  Python `None` is `Option.none`.
-/

namespace Traktarr

/-- A record aggregated by a paginated fetch.  `bare` is a record appended
as-is (`processed_shows.append(show)`); `wrapped` is a record wrapped into
a one-key envelope before appending, as in trakt.py line 478
(`processed_shows.append({'show': show})`) and line 663 for movies.
The payload type `α` is opaque. -/
inductive Record (α : Type) where
  | bare : α → Record α
  | wrapped : String → α → Record α
deriving DecidableEq, Repr

/-- One HTTP response consumed by a pagination loop: the status code, the
decoded JSON body (`req.json()`, a list of records), and the
X-Pagination-Page-Count header (`none` models an absent header,
`some n` the header parsed with `int`). -/
structure Response (α : Type) where
  status : Nat
  body : List α
  pageCount : Option Nat
deriving DecidableEq, Repr

/-- The per-page aggregation loop body of every trakt.py fetch method
(e.g. lines 228-230): `for show in resp_json: if show not in
processed_shows: processed_shows.append(WRAP(show))`, where `WRAP` is the
identity for most endpoints and the envelope for the popular endpoints.
Note the membership test compares the bare record, exactly as the Python
`show not in processed_shows` does, while the appended value is
`wrap show`. -/
def appendNew {α : Type} [DecidableEq α] (wrap : α → Record α)
    (processed : List (Record α)) (items : List α) : List (Record α) :=
  items.foldl (fun acc s => if Record.bare s ∈ acc then acc else acc ++ [wrap s]) processed

/-- Outcome of the `while True` page loop: `finished` is a `break` with the
aggregated list in hand, `exited` is the `exit()` call on a 401 response in
the authenticated methods (trakt.py lines 302-305), `starved` is a model
artifact marking that the supplied response stream ran out while the loop
wanted another page. -/
inductive FetchOut (α : Type) where
  | finished : List (Record α) → FetchOut α
  | exited : FetchOut α
  | starved : List (Record α) → FetchOut α
deriving DecidableEq, Repr

/-- The `while True` pagination loop shared by every fetch method of
trakt.py (lines 211-247 of get_anticipated_shows are the canonical copy).
`auth` is true for the four methods that carry the
`elif req.status_code == 401: exit()` branch.  The second component of the
result is the list of page numbers requested, in order (`payload[page]`
starts at 1 and is incremented at line 242).  On a 200 response the body is
aggregated; the loop breaks when the page-count header is absent or zero
(line 233) or when the current page has reached it (line 236); any other
status breaks out of the loop keeping what was aggregated (line 245-247),
except a 401 in an authenticated method, which terminates the process. -/
def fetchLoop {α : Type} [DecidableEq α] (wrap : α → Record α) (auth : Bool) :
    List (Response α) → Nat → List (Record α) → FetchOut α × List Nat
  | [], _, processed => (FetchOut.starved processed, [])
  | r :: rest, page, processed =>
    if r.status = 200 then
      match r.pageCount with
      | none => (FetchOut.finished (appendNew wrap processed r.body), [page])
      | some n =>
        if n = 0 then (FetchOut.finished (appendNew wrap processed r.body), [page])
        else if n ≤ page then (FetchOut.finished (appendNew wrap processed r.body), [page])
        else
          let rec2 := fetchLoop wrap auth rest (page + 1) (appendNew wrap processed r.body)
          (rec2.1, page :: rec2.2)
    else if auth ∧ r.status = 401 then (FetchOut.exited, [page])
    else (FetchOut.finished processed, [page])

/-- What a fetch method hands to its caller: `value` is a non-empty
aggregated list, `noResult` is the `return None` taken when the aggregated
list is empty (trakt.py lines 249-252), `processExit` is the `exit()` on a
401, `streamEnd` is the model artifact for an exhausted response stream. -/
inductive EndpointResult (α : Type) where
  | value : List (Record α) → EndpointResult α
  | noResult : EndpointResult α
  | processExit : EndpointResult α
  | streamEnd : List (Record α) → EndpointResult α
deriving DecidableEq, Repr

/-- The epilogue shared by every fetch method: run the page loop from page
1 with an empty accumulator, then `if len(processed): return processed`
else `return None` (trakt.py lines 249-252).  Also returns the pages
requested. -/
def runFetch {α : Type} [DecidableEq α] (wrap : α → Record α) (auth : Bool)
    (responses : List (Response α)) : EndpointResult α × List Nat :=
  match fetchLoop wrap auth responses 1 [] with
  | (FetchOut.finished l, pages) =>
    (if l = [] then EndpointResult.noResult else EndpointResult.value l, pages)
  | (FetchOut.exited, pages) => (EndpointResult.processExit, pages)
  | (FetchOut.starved l, pages) => (EndpointResult.streamEnd l, pages)

/-- Trakt.get_anticipated_shows (trakt.py lines 197-255): unauthenticated,
records appended bare. -/
def get_anticipated_shows {α : Type} [DecidableEq α] :
    List (Response α) → EndpointResult α × List Nat :=
  runFetch Record.bare false

/-- Trakt.get_trending_shows (trakt.py lines 384-442). -/
def get_trending_shows {α : Type} [DecidableEq α] :
    List (Response α) → EndpointResult α × List Nat :=
  runFetch Record.bare false

/-- Trakt.get_popular_shows (trakt.py lines 444-503): unauthenticated, and
each record is wrapped into the envelope at line 478 before appending. -/
def get_popular_shows {α : Type} [DecidableEq α] :
    List (Response α) → EndpointResult α × List Nat :=
  runFetch (Record.wrapped "show") false

/-- Trakt.get_watchlist_shows (trakt.py lines 257-318): authenticated, so
a 401 response reaches `exit()` at line 305. -/
def get_watchlist_shows {α : Type} [DecidableEq α] :
    List (Response α) → EndpointResult α × List Nat :=
  runFetch Record.bare true

/-- Trakt.get_user_list_shows (trakt.py lines 320-382): authenticated. -/
def get_user_list_shows {α : Type} [DecidableEq α] :
    List (Response α) → EndpointResult α × List Nat :=
  runFetch Record.bare true

/-- Trakt.get_anticipated_movies (trakt.py lines 509-567). -/
def get_anticipated_movies {α : Type} [DecidableEq α] :
    List (Response α) → EndpointResult α × List Nat :=
  runFetch Record.bare false

/-- Trakt.get_trending_movies (trakt.py lines 569-627). -/
def get_trending_movies {α : Type} [DecidableEq α] :
    List (Response α) → EndpointResult α × List Nat :=
  runFetch Record.bare false

/-- Trakt.get_popular_movies (trakt.py lines 629-688): each record wrapped
into the envelope at line 663. -/
def get_popular_movies {α : Type} [DecidableEq α] :
    List (Response α) → EndpointResult α × List Nat :=
  runFetch (Record.wrapped "movie") false

/-- Trakt.get_boxoffice_movies (trakt.py lines 690-748). -/
def get_boxoffice_movies {α : Type} [DecidableEq α] :
    List (Response α) → EndpointResult α × List Nat :=
  runFetch Record.bare false

/-- Trakt.get_watchlist_movies (trakt.py lines 750-811): authenticated. -/
def get_watchlist_movies {α : Type} [DecidableEq α] :
    List (Response α) → EndpointResult α × List Nat :=
  runFetch Record.bare true

/-- Trakt.get_user_list_movies (trakt.py lines 813-875): authenticated. -/
def get_user_list_movies {α : Type} [DecidableEq α] :
    List (Response α) → EndpointResult α × List Nat :=
  runFetch Record.bare true

/-- Result of one run of the retry wrapper: the value handed to the caller,
the number of attempts made, and the backoff schedule of waits taken
between consecutive attempts. -/
structure RetryOut (α : Type) where
  result : Option α
  attempts : Nat
  waits : List Nat
deriving DecidableEq, Repr

/-- The decorator `@backoff.on_predicate(backoff.expo, lambda x: x is
None, max_tries=4, on_backoff=backoff_handler)` applied to every remote
call of trakt.py and sonarr.py (e.g. trakt.py line 197, sonarr.py line
39).  Modelled per the documented semantics of the backoff library:
attempt k (0-indexed) calls the operation; a non-None value is returned at
once; on None the wrapper waits the k-th value of the `backoff.expo`
schedule (factor 1, base 2, hence 2 ^ k seconds) and tries again, up to
max_tries attempts in total, after which the final None is returned to the
caller without raising.  `op` takes the attempt index so that
attempt-dependent behaviour can be expressed; the decorated source
operations ignore it. -/
def retryAux {α : Type} (op : Nat → Option α) : Nat → Nat → RetryOut α
  | k, 0 => { result := none, attempts := k, waits := [] }
  | k, remaining + 1 =>
    match op k with
    | some v => { result := some v, attempts := k + 1, waits := [] }
    | none =>
      if remaining = 0 then { result := none, attempts := k + 1, waits := [] }
      else
        let rest := retryAux op (k + 1) remaining
        { rest with waits := 2 ^ k :: rest.waits }

/-- The retry policy with the max_tries=4 cap used throughout the source. -/
def retryPolicy {α : Type} (op : Nat → Option α) : RetryOut α :=
  retryAux op 0 4

/-- An attempted HTTP call: either a response came back, or the requests
library raised (connection error, JSON decode error, missing key), which
every source method catches with `except Exception`. -/
inductive HttpAttempt (ρ : Type) where
  | resp : ρ → HttpAttempt ρ
  | exn : HttpAttempt ρ
deriving DecidableEq, Repr

/-- The response data Sonarr.add_series inspects: the status code, the
tvdbId field of the JSON body (`none` when the body is not JSON or lacks
the key, in which case the source raises a caught exception), and whether
the literal text errorMessage occurs in the body. -/
structure AddSeriesResponse where
  status : Nat
  jsonTvdbId : Option Nat
  hasErrorMessage : Bool
deriving DecidableEq, Repr

/-- Sonarr.add_series (sonarr.py lines 78-109), response handling: 201
with a matching tvdbId returns True; 401 with an errorMessage body returns
False; every other response falls into the final `else` and also returns
False (line 104-106); only a raised exception reaches `return None`
(line 109), which is what the retry decorator retries. -/
def add_series (tvdbid : Nat) : HttpAttempt AddSeriesResponse → Option Bool
  | HttpAttempt.exn => none
  | HttpAttempt.resp r =>
    if r.status = 201 then
      match r.jsonTvdbId with
      | some t => if t = tvdbid then some true else some false
      | none => none
    else if r.status = 401 ∧ r.hasErrorMessage then some false
    else some false

/-- The response data the validation probes inspect: status code and the
set of top-level keys of the JSON body. -/
structure ValidateResponse where
  status : Nat
  bodyFields : List String
deriving DecidableEq, Repr

/-- Sonarr.validate_api_key (sonarr.py lines 26-37): true iff the status
is 200 and the key version is present in the JSON body; any exception is
caught and yields false. -/
def sonarr_validate_api_key : HttpAttempt ValidateResponse → Bool
  | HttpAttempt.exn => false
  | HttpAttempt.resp r => if r.status = 200 ∧ "version" ∈ r.bodyFields then true else false

/-- Trakt.validate_api_key (trakt.py lines 30-49): true iff the status is
200 — the body is never inspected; any exception is caught and yields
false. -/
def trakt_validate_api_key : HttpAttempt ValidateResponse → Bool
  | HttpAttempt.exn => false
  | HttpAttempt.resp r => if r.status = 200 then true else false

/-- Outcome of Trakt.__oauth_poll_for_access_token: the returned boolean,
the number of times the 200-branch of __oauth_process_token_request
persisted a Credential (`new_config.merge_settings`, trakt.py lines
85-92), the final polling interval, the elapsed times (seconds since
polling_start) at which poll requests were issued, and whether the loop
ran to a genuine exit (false only when the model fuel ran out). -/
structure PollOut where
  retval : Bool
  stores : Nat
  interval : Nat
  reqTimes : List Nat
  completed : Bool
deriving DecidableEq, Repr

/-- The interval update of the polling loop: a 426 response increases the
interval by one second (trakt.py lines 130-132); every other status leaves
it unchanged. -/
def nextInterval (status interval : Nat) : Nat :=
  if status = 426 then interval + 1 else interval

/-- Record one more issued poll request at elapsed time t. -/
def consReq (t : Nat) (p : PollOut) : PollOut :=
  { p with reqTimes := t :: p.reqTimes }

/-- The polling loop of Trakt.__oauth_poll_for_access_token (trakt.py
lines 109-135), driven by the stream of token-endpoint status codes
indexed by poll number.  Wall-clock time advances only at the
`time.sleep` calls, so `elapsed` starts at the initial
`time.sleep(polling_interval)` of line 111 and grows by the (possibly
426-incremented) interval after each non-200 response (line 134).  The
`while` condition of line 114 issues a request only while
elapsed < expire.  A 200 response persists a Credential once
(__oauth_process_token_request, lines 74-94) and breaks; note that the
function then falls through to the unconditional `return False` of line
135, so `retval` is false on every path.  The other documented statuses
(404, 409, 410, 418, 429) only log and keep polling.  `fuel` bounds the
recursion; theorems show that fuel expire + 1 always suffices when the
interval is at least one second. -/
def pollAux (statuses : Nat → Nat) (expire : Nat) :
    Nat → Nat → Nat → Nat → Nat → PollOut
  | 0, _, interval, stores, _ =>
    { retval := false, stores := stores, interval := interval, reqTimes := [], completed := false }
  | fuel + 1, elapsed, interval, stores, tries =>
    if elapsed < expire then
      if statuses tries = 200 then
        { retval := false, stores := stores + 1, interval := interval,
          reqTimes := [elapsed], completed := true }
      else
        consReq elapsed
          (pollAux statuses expire fuel
            (elapsed + nextInterval (statuses tries) interval)
            (nextInterval (statuses tries) interval) stores (tries + 1))
    else
      { retval := false, stores := stores, interval := interval, reqTimes := [], completed := true }

/-- Trakt.__oauth_poll_for_access_token with its initial
`time.sleep(polling_interval)` (line 111): elapsed starts at the interval
and the loop runs with the expiry budget. -/
def pollForAccessToken (statuses : Nat → Nat) (interval expire : Nat) : PollOut :=
  pollAux statuses expire (expire + 1) interval interval 0 0

/-- Trakt.oauth_authentication (trakt.py lines 149-159): returns True only
if __oauth_poll_for_access_token returned a truthy value, else False. -/
def oauth_authentication (statuses : Nat → Nat) (interval expire : Nat) : Bool :=
  (pollForAccessToken statuses interval expire).retval

/-- The status stream [429, 426, 200] of property P5 of the spec. -/
def statusesP5 : Nat → Nat :=
  fun i => if i = 0 then 429 else if i = 1 then 426 else 200

/-- A Python dict of HTTP headers, modelled by its key-value content. -/
def HeaderMap : Type := String → Option String

/-- Python dict assignment `m[k] = v`. -/
def setHeader (m : HeaderMap) (k v : String) : HeaderMap :=
  fun x => if x = k then some v else m x

/-- The object heap: dict identity is an address, so aliasing two names to
one dict is sharing one address. -/
structure Heap where
  maps : Nat → HeaderMap

/-- In-place mutation of the dict stored at `addr`. -/
def Heap.write (h : Heap) (addr : Nat) (m : HeaderMap) : Heap :=
  ⟨fun a => if a = addr then m else h.maps a⟩

/-- The mutable state of a Trakt client instance relevant to header
handling: the heap and the address of the dict bound to self.headers in
__init__ (trakt.py lines 24-28). -/
structure TraktState where
  heap : Heap
  headersAddr : Nat

/-- The 200-branch of Trakt.__oauth_process_token_request (trakt.py lines
80-83): `temp_headers = self.headers` aliases the shared dict, and
`temp_headers['Authorization'] = 'Bearer ' + access_token` mutates it in
place at the shared address. -/
def oauth_process_token_success (s : TraktState) (accessToken : String) : TraktState :=
  { s with
    heap := s.heap.write s.headersAddr
      (setHeader (s.heap.maps s.headersAddr) "Authorization" ("Bearer " ++ accessToken)) }

/-- Trakt.oauth_headers (trakt.py lines 161-191): `headers = self.headers`
aliases the shared dict (line 162); if the stored token is expired and the
best-effort refresh gets a 200, the refresh path itself writes an
Authorization entry into the shared dict via the temp_headers alias; then
line 189 unconditionally writes `'Bearer ' + token_information
['access_token']` into the shared dict in place, and line 191 returns that
same dict.  The returned address is the first component. -/
def oauth_headers (s : TraktState) (expired refreshOk : Bool)
    (refreshedToken storedToken : String) : Nat × TraktState :=
  let s1 := if expired && refreshOk then oauth_process_token_success s refreshedToken else s
  (s1.headersAddr,
   { s1 with
     heap := s1.heap.write s1.headersAddr
       (setHeader (s1.heap.maps s1.headersAddr) "Authorization" ("Bearer " ++ storedToken)) })

/-- The header dict read by every request built from self.headers, such as
the get_anticipated_shows request of trakt.py line 214. -/
def requestHeaders (s : TraktState) : HeaderMap :=
  s.heap.maps s.headersAddr

/-- Helper: the Python idiom `if cond: return True / return False`
translated as an ite on booleans equals true exactly when the condition
holds. -/
theorem ite_bool_eq_true (c : Prop) [Decidable c] : ((if c then true else false) = true) ↔ c := by
  by_cases h : c <;> simp [h]

/-- Helper: the first component of runFetch, written as a match on the
outcome of the page loop. -/
theorem runFetch_fst {α : Type} [DecidableEq α] (wrap : α → Record α) (auth : Bool)
    (responses : List (Response α)) :
    (runFetch wrap auth responses).1 =
      match (fetchLoop wrap auth responses 1 []).1 with
      | FetchOut.finished l => if l = [] then EndpointResult.noResult else EndpointResult.value l
      | FetchOut.exited => EndpointResult.processExit
      | FetchOut.starved l => EndpointResult.streamEnd l := by
  unfold runFetch
  rcases fetchLoop wrap auth responses 1 [] with ⟨o, p⟩
  cases o <;> rfl

/-- Helper: the retry wrapper applied to a constantly-failing operation. -/
theorem retryPolicy_constNone {α : Type} :
    retryPolicy (fun _ => (none : Option α)) =
      { result := none, attempts := 4, waits := [1, 2, 4] } := rfl

/-- Helper: the retry wrapper applied to an operation succeeding at once. -/
theorem retryPolicy_constSome {α : Type} (v : α) :
    retryPolicy (fun _ => some v) =
      { result := some v, attempts := 1, waits := [] } := rfl

/-- Claim C4: an operation wrapped by the retry decorator that returns the
transient sentinel None on every attempt is attempted exactly 4 times, and
the wrapper then yields the sentinel to the caller instead of raising; the
wait of the backoff schedule before attempt k+1 is 2 ^ k seconds (base
times two to the k). -/
theorem retry_exhausts_after_four_attempts {α : Type} (op : Nat → Option α)
    (h : ∀ k, op k = none) :
    retryPolicy op = { result := none, attempts := 4, waits := [2 ^ 0, 2 ^ 1, 2 ^ 2] } := by
  have hop : op = fun _ => none := funext h
  rw [hop]
  rfl

/-- Witness for C4 at the constantly-failing operation. -/
theorem retry_exhausts_after_four_attempts_witness :
    retryPolicy (fun _ => (none : Option Nat)) =
      { result := none, attempts := 4, waits := [2 ^ 0, 2 ^ 1, 2 ^ 2] } :=
  retry_exhausts_after_four_attempts (fun _ => none) (fun _ => rfl)

/-- Claim C2, evaluated at the stated input (code bug): feeding the
polling loop the statuses [429, 426, 200] with interval 5 and budget 600
issues requests at elapsed times 5, 10 and 16 — the interval is unchanged
(still 5) after the 429 and increased by exactly one (to 6) after the 426
— and the 200 persists the Credential exactly once and breaks the loop;
yet __oauth_poll_for_access_token still returns False by the unconditional
return of trakt.py line 135, so oauth_authentication also reports False
where the claim expects true. -/
theorem device_flow_429_426_200 :
    pollForAccessToken statusesP5 5 600 =
      { retval := false, stores := 1, interval := 6, reqTimes := [5, 10, 16],
        completed := true } ∧
    oauth_authentication statusesP5 5 600 = false :=
  ⟨rfl, rfl⟩

/-- Claim C1, evaluated at the failing input (code bug): a single 200 page
of get_popular_shows whose body repeats one show yields an aggregated list
holding two structurally-equal wrapped records, because the membership
test of trakt.py line 477 compares the bare show against the wrapped
entries appended at line 478 and therefore never filters anything. -/
theorem popular_shows_duplicate_records :
    (get_popular_shows [({ status := 200, body := [0, 0], pageCount := none } : Response Nat)]).1 =
      EndpointResult.value [Record.wrapped "show" 0, Record.wrapped "show" 0] ∧
    ¬ ([Record.wrapped "show" (0 : Nat), Record.wrapped "show" 0].Nodup) :=
  ⟨by decide, by decide⟩

/-- Claim C9 counterexample: Trakt.validate_api_key returns true on a 200
response whose body carries no field at all, so the required-field
conjunct of the claim fails for the Trakt probe. -/
theorem trakt_validate_ignores_body :
    trakt_validate_api_key (HttpAttempt.resp { status := 200, bodyFields := [] }) = true ∧
    ({ status := 200, bodyFields := [] } : ValidateResponse).bodyFields = [] :=
  ⟨rfl, rfl⟩

/-- Claim C9 amended: both probes are total boolean functions of the
attempt outcome (exceptions return false, nothing propagates);
Sonarr.validate_api_key returns true iff the status is 200 and the field
version is present in the body, while Trakt.validate_api_key returns true
iff the status is 200, with no body-field requirement. -/
theorem validate_api_key_characterization (att : HttpAttempt ValidateResponse) :
    (sonarr_validate_api_key att = true ↔
      ∃ r, att = HttpAttempt.resp r ∧ r.status = 200 ∧ "version" ∈ r.bodyFields) ∧
    (trakt_validate_api_key att = true ↔
      ∃ r, att = HttpAttempt.resp r ∧ r.status = 200) := by
  cases att with
  | exn => simp [sonarr_validate_api_key, trakt_validate_api_key]
  | resp r => simp [sonarr_validate_api_key, trakt_validate_api_key, ite_bool_eq_true]

/-- Claim C5 counterexample: a 500 response — neither the 201 success nor
the 401-with-message rejection — makes add_series return the confirmed
False rather than the retryable sentinel None, and the retry policy
therefore makes no further attempt. -/
theorem add_series_unexpected_response_not_retried :
    add_series 123
        (HttpAttempt.resp { status := 500, jsonTvdbId := none, hasErrorMessage := false }) =
      some false ∧
    (retryPolicy (fun _ =>
      add_series 123
        (HttpAttempt.resp { status := 500, jsonTvdbId := none, hasErrorMessage := false }))).attempts = 1 :=
  ⟨rfl, rfl⟩

/-- Claim C5 amended: add_series returns confirmed success True iff the
response has status 201 with a payload tvdbId equal to the requested one;
it yields the retryable sentinel None exactly when the call raised
(network error) or a 201 payload lacks a readable tvdbId; every other
response — the 401-with-message rejection and any unexpected response
alike — returns confirmed False; and the retry policy re-attempts (4
attempts in total) exactly when the sentinel is yielded, making a single
attempt otherwise. -/
theorem add_series_outcomes (tvdbid : Nat) (att : HttpAttempt AddSeriesResponse) :
    (add_series tvdbid att = some true ↔
      ∃ r, att = HttpAttempt.resp r ∧ r.status = 201 ∧ r.jsonTvdbId = some tvdbid) ∧
    (add_series tvdbid att = none ↔
      att = HttpAttempt.exn ∨
        ∃ r, att = HttpAttempt.resp r ∧ r.status = 201 ∧ r.jsonTvdbId = none) ∧
    (retryPolicy (fun _ => add_series tvdbid att)).attempts =
      (if add_series tvdbid att = none then 4 else 1) := by
  refine ⟨?_, ?_, ?_⟩
  · cases att with
    | exn => simp [add_series]
    | resp r =>
      cases hj : r.jsonTvdbId with
      | none =>
        by_cases h201 : r.status = 201 <;> simp [add_series, hj, h201]
      | some t =>
        by_cases h201 : r.status = 201 <;> by_cases ht : t = tvdbid <;>
          simp [add_series, hj, h201, ht]
  · cases att with
    | exn => simp [add_series]
    | resp r =>
      cases hj : r.jsonTvdbId with
      | none =>
        by_cases h201 : r.status = 201 <;> simp [add_series, hj, h201]
      | some t =>
        by_cases h201 : r.status = 201 <;> by_cases ht : t = tvdbid <;>
          simp [add_series, hj, h201, ht]
  · cases h : add_series tvdbid att with
    | none => simp [h, retryPolicy_constNone]
    | some b => simp [h, retryPolicy_constSome]

/-- Claim C7: when the page loop of a fetch operation finishes with an
empty aggregated list, the operation returns the sentinel None — the same
value a transient failure yields — and a value result is never the empty
list. -/
theorem empty_aggregate_reports_no_result {α : Type} [DecidableEq α]
    (wrap : α → Record α) (auth : Bool) (responses : List (Response α)) :
    ((fetchLoop wrap auth responses 1 []).1 = FetchOut.finished [] →
      (runFetch wrap auth responses).1 = EndpointResult.noResult) ∧
    ∀ l, (runFetch wrap auth responses).1 = EndpointResult.value l → l ≠ [] := by
  constructor
  · intro h
    rw [runFetch_fst, h]
    simp
  · intro l hl
    rw [runFetch_fst] at hl
    cases ho : (fetchLoop wrap auth responses 1 []).1 with
    | finished l2 =>
      rw [ho] at hl
      by_cases h2 : l2 = []
      · simp [h2] at hl
      · simp [h2] at hl
        rw [← hl]
        exact h2
    | exited => rw [ho] at hl; simp at hl
    | starved l2 => rw [ho] at hl; simp at hl

/-- Witness for C7 at one empty 200 page. -/
theorem empty_aggregate_reports_no_result_witness :
    (runFetch (Record.bare (α := Nat)) false
        [{ status := 200, body := [], pageCount := none }]).1 = EndpointResult.noResult :=
  (empty_aggregate_reports_no_result Record.bare false
      [{ status := 200, body := [], pageCount := none }]).1 (by decide)

/-- Helper for C3: a run of the page loop over a stream of 200 responses
all carrying page count N, starting at page p with p + length = N + 1,
requests exactly the pages p, p+1, ..., N and breaks. -/
theorem fetchLoop_full_run {α : Type} [DecidableEq α] (wrap : α → Record α) (auth : Bool)
    (N : Nat) :
    ∀ (responses : List (Response α)) (page : Nat) (processed : List (Record α)),
      (∀ r ∈ responses, r.status = 200 ∧ r.pageCount = some N) →
      1 ≤ page → 1 ≤ responses.length → page + responses.length = N + 1 →
      (∃ l, (fetchLoop wrap auth responses page processed).1 = FetchOut.finished l) ∧
      (fetchLoop wrap auth responses page processed).2 = List.range' page responses.length := by
  intro responses
  induction responses with
  | nil =>
    intro page processed _ _ hlen _
    simp at hlen
  | cons r rest ih =>
    intro page processed hall hpage _ hsum
    obtain ⟨hs, hc⟩ := hall r (List.mem_cons_self r rest)
    have hsum2 : page + rest.length = N := by
      simp [List.length_cons] at hsum
      omega
    have hN0 : N ≠ 0 := by omega
    cases rest with
    | nil =>
      have hle : N ≤ page := by simp at hsum2; omega
      simp [fetchLoop, hs, hc, hN0, hle, List.range']
    | cons x xs =>
      have hNle : ¬ N ≤ page := by simp [List.length_cons] at hsum2; omega
      have hrec := ih (page + 1) (appendNew wrap processed r.body)
        (fun y hy => hall y (List.mem_cons_of_mem r hy)) (by omega)
        (by simp [List.length_cons]) (by simp [List.length_cons] at hsum2 ⊢; omega)
      simp [fetchLoop, hs, hc, hN0, hNle, List.range', List.length_cons]
      exact ⟨hrec.1, hrec.2⟩

/-- Claim C3: if every response of the page stream carries status 200 and
total-page-count signal N with N at least 1, the loop issues exactly the N
page requests 1, 2, ..., N and stops; if the first response carries
status 200 and an absent or zero page-count signal, the loop issues
exactly one request and stops. -/
theorem pagination_request_counts {α : Type} [DecidableEq α] (wrap : α → Record α)
    (auth : Bool) (N : Nat) (responses : List (Response α)) (r : Response α)
    (rest : List (Response α)) :
    ((∀ x ∈ responses, x.status = 200 ∧ x.pageCount = some N) → 1 ≤ N →
      responses.length = N →
      (∃ l, (fetchLoop wrap auth responses 1 []).1 = FetchOut.finished l) ∧
      (fetchLoop wrap auth responses 1 []).2 = List.range' 1 N) ∧
    (r.status = 200 → (r.pageCount = none ∨ r.pageCount = some 0) →
      (∃ l, (fetchLoop wrap auth (r :: rest) 1 []).1 = FetchOut.finished l) ∧
      (fetchLoop wrap auth (r :: rest) 1 []).2 = [1]) := by
  constructor
  · intro hall hN hlen
    have h := fetchLoop_full_run wrap auth N responses 1 [] hall (by omega)
      (by omega) (by omega)
    rw [hlen] at h
    exact h
  · intro hs hpc
    rcases hpc with h | h <;> simp [fetchLoop, hs, h]

/-- Witness for C3: a two-page stream with page count 2, and a single page
with an absent page-count header. -/
theorem pagination_request_counts_witness :
    ((∃ l, (fetchLoop (Record.bare (α := Nat)) false
        [{ status := 200, body := [0], pageCount := some 2 },
         { status := 200, body := [1], pageCount := some 2 }] 1 []).1 =
          FetchOut.finished l) ∧
      (fetchLoop (Record.bare (α := Nat)) false
        [{ status := 200, body := [0], pageCount := some 2 },
         { status := 200, body := [1], pageCount := some 2 }] 1 []).2 =
          List.range' 1 2) ∧
    ((∃ l, (fetchLoop (Record.bare (α := Nat)) false
        [{ status := 200, body := [0], pageCount := none }] 1 []).1 =
          FetchOut.finished l) ∧
      (fetchLoop (Record.bare (α := Nat)) false
        [{ status := 200, body := [0], pageCount := none }] 1 []).2 = [1]) :=
  ⟨(pagination_request_counts Record.bare false 2
      [{ status := 200, body := [0], pageCount := some 2 },
       { status := 200, body := [1], pageCount := some 2 }]
      { status := 200, body := [0], pageCount := none } []).1
      (by decide) (by decide) (by decide),
   (pagination_request_counts Record.bare false 2
      [{ status := 200, body := [0], pageCount := some 2 },
       { status := 200, body := [1], pageCount := some 2 }]
      { status := 200, body := [0], pageCount := none } []).2
      (by decide) (by decide)⟩

/-- Helper for C8: an authenticated page loop that reaches a 401 response
after a prefix of 200 pages that keeps it running ends in the process
exit. -/
theorem fetchLoop_401_exits {α : Type} [DecidableEq α] (wrap : α → Record α) (N : Nat)
    (r : Response α) (rest : List (Response α)) (h401 : r.status = 401) :
    ∀ (good : List (Response α)) (page : Nat) (processed : List (Record α)),
      (∀ x ∈ good, x.status = 200 ∧ x.pageCount = some N) →
      1 ≤ page → page + good.length ≤ N →
      (fetchLoop wrap true (good ++ r :: rest) page processed).1 = FetchOut.exited := by
  intro good
  induction good with
  | nil =>
    intro page processed _ _ _
    simp [fetchLoop, h401]
  | cons x xs ih =>
    intro page processed hall hpage hle
    obtain ⟨hs, hc⟩ := hall x (List.mem_cons_self x xs)
    have hle2 : page + (xs.length + 1) ≤ N := by simpa [List.length_cons] using hle
    have hN0 : N ≠ 0 := by omega
    have hNle : ¬ N ≤ page := by omega
    simp [fetchLoop, hs, hc, hN0, hNle]
    exact ih (page + 1) (appendNew wrap processed x.body)
      (fun y hy => hall y (List.mem_cons_of_mem x hy)) (by omega) (by omega)

/-- Claim C8: in the four authenticated paginated fetches, an HTTP 401
reached during the page loop is fatal and distinct from a transient
failure: the operation neither returns a value nor the retry sentinel but
terminates the whole process (the exit call of trakt.py lines 305, 369,
798 and 862), after any prefix of successful pages that keeps the loop
running. -/
theorem auth_fetch_401_aborts_process {α : Type} [DecidableEq α] (N : Nat)
    (good : List (Response α)) (r : Response α) (rest : List (Response α))
    (h401 : r.status = 401)
    (hgood : ∀ x ∈ good, x.status = 200 ∧ x.pageCount = some N)
    (hlen : good.length < N) :
    (get_watchlist_shows (good ++ r :: rest)).1 = EndpointResult.processExit ∧
    (get_user_list_shows (good ++ r :: rest)).1 = EndpointResult.processExit ∧
    (get_watchlist_movies (good ++ r :: rest)).1 = EndpointResult.processExit ∧
    (get_user_list_movies (good ++ r :: rest)).1 = EndpointResult.processExit := by
  have h := fetchLoop_401_exits Record.bare N r rest h401 good 1 [] hgood
    (by omega) (by omega)
  have hrun : (runFetch Record.bare true (good ++ r :: rest)).1 =
      EndpointResult.processExit := by
    rw [runFetch_fst, h]
  exact ⟨hrun, hrun, hrun, hrun⟩

/-- Witness for C8 at an immediate 401. -/
theorem auth_fetch_401_aborts_process_witness :
    (get_watchlist_shows [({ status := 401, body := [], pageCount := none } : Response Nat)]).1 =
      EndpointResult.processExit ∧
    (get_user_list_shows [({ status := 401, body := [], pageCount := none } : Response Nat)]).1 =
      EndpointResult.processExit ∧
    (get_watchlist_movies [({ status := 401, body := [], pageCount := none } : Response Nat)]).1 =
      EndpointResult.processExit ∧
    (get_user_list_movies [({ status := 401, body := [], pageCount := none } : Response Nat)]).1 =
      EndpointResult.processExit :=
  auth_fetch_401_aborts_process 1 []
    { status := 401, body := [], pageCount := none } [] rfl (by decide) (by decide)

/-- Helper for C6: with an interval of at least one second and no 200
response ever arriving, the polling loop runs to a genuine exit of the
while condition within the model fuel, returns False, and issues every
request strictly before the expiry budget. -/
theorem pollAux_nonterminal (statuses : Nat → Nat) (expire : Nat)
    (hns : ∀ i, statuses i ≠ 200) :
    ∀ (fuel elapsed interval stores tries : Nat),
      1 ≤ interval → expire - elapsed < fuel →
      (pollAux statuses expire fuel elapsed interval stores tries).retval = false ∧
      (pollAux statuses expire fuel elapsed interval stores tries).completed = true ∧
      ∀ t ∈ (pollAux statuses expire fuel elapsed interval stores tries).reqTimes,
        t < expire := by
  intro fuel
  induction fuel with
  | zero =>
    intro elapsed interval stores tries _ hf
    omega
  | succ fuel ih =>
    intro elapsed interval stores tries hint hf
    by_cases he : elapsed < expire
    · have hs := hns tries
      have hint2 : 1 ≤ nextInterval (statuses tries) interval := by
        unfold nextInterval
        split <;> omega
      have hrec := ih (elapsed + nextInterval (statuses tries) interval)
        (nextInterval (statuses tries) interval) stores (tries + 1) hint2 (by omega)
      simp only [pollAux, if_pos he, if_neg hs, consReq]
      refine ⟨hrec.1, hrec.2.1, ?_⟩
      intro t ht
      simp at ht
      rcases ht with rfl | ht
      · exact he
      · exact hrec.2.2 t ht
    · simp [pollAux, he]

/-- Claim C6: with a positive polling interval, if no terminal response
(200, 404, 409, 410, 418) ever arrives, the polling loop stops once the
expiry budget is reached — it issues no poll request at or past expires_in
seconds of elapsed time — and the flow reports the failed outcome False,
whatever the non-terminal statuses were.  (In the source only a 200
actually breaks the loop, so the hypothesis that no terminal status
arrives is used only through its 200 case.) -/
theorem poll_expiry_timeout (statuses : Nat → Nat) (interval expire : Nat)
    (hint : 1 ≤ interval)
    (hterm : ∀ i, statuses i ∉ ([200, 404, 409, 410, 418] : List Nat)) :
    (pollForAccessToken statuses interval expire).retval = false ∧
    (pollForAccessToken statuses interval expire).completed = true ∧
    ∀ t ∈ (pollForAccessToken statuses interval expire).reqTimes, t < expire := by
  have hns : ∀ i, statuses i ≠ 200 := by
    intro i h
    exact hterm i (by simp [h])
  exact pollAux_nonterminal statuses expire hns (expire + 1) interval interval 0 0
    hint (by omega)

/-- Witness for C6 at a stream of constant 429 responses. -/
theorem poll_expiry_timeout_witness :
    (pollForAccessToken (fun _ => 429) 1 3).retval = false ∧
    (pollForAccessToken (fun _ => 429) 1 3).completed = true ∧
    ∀ t ∈ (pollForAccessToken (fun _ => 429) 1 3).reqTimes, t < 3 :=
  poll_expiry_timeout (fun _ => 429) 1 3 (by decide)
    (fun i => by
      show (429 : Nat) ∉ ([200, 404, 409, 410, 418] : List Nat)
      decide)

/-- Claim C10: oauth_headers returns the address of the very dict stored
in self.headers (the alias taken at trakt.py line 162) after writing the
Authorization entry into it in place (line 189), so after any single
authenticated call the shared header map — the map every subsequent
request such as the get_anticipated_shows request of line 214 is built
from — permanently contains the bearer token; and the 200-branch of a
token poll likewise writes Authorization into self.headers through the
temp_headers alias of lines 80-83. -/
theorem oauth_headers_mutates_shared_dict (s : TraktState) (expired refreshOk : Bool)
    (refreshedToken storedToken : String) :
    (oauth_headers s expired refreshOk refreshedToken storedToken).1 = s.headersAddr ∧
    requestHeaders (oauth_headers s expired refreshOk refreshedToken storedToken).2 =
      ((oauth_headers s expired refreshOk refreshedToken storedToken).2).heap.maps
        s.headersAddr ∧
    requestHeaders (oauth_headers s expired refreshOk refreshedToken storedToken).2
        "Authorization" = some ("Bearer " ++ storedToken) ∧
    requestHeaders (oauth_process_token_success s refreshedToken) "Authorization" =
      some ("Bearer " ++ refreshedToken) := by
  rcases Bool.eq_false_or_eq_true (expired && refreshOk) with hb | hb <;>
    simp [oauth_headers, oauth_process_token_success, requestHeaders,
      Heap.write, setHeader, hb]

end Traktarr
